import Mathlib

/-!
Shallow embedding of the webhook relay pipeline
(`src/webhooks/*.step.ts`, `src/types/webhook.types.ts`).

The durable key/value store is modelled as an association list with
last-write-wins semantics (`sset` prepends, `sget` finds the most recent
binding).  ISO-8601 timestamps that are only compared through
`new Date(s).getTime()` are modelled as epoch milliseconds (`Nat`); the
mapping from valid ISO strings to milliseconds is strictly monotone, so
order-sensitive results are preserved.  Timestamps that are merely stored
and echoed back are kept as `String`.
-/

namespace Relay

/-- A JSON value, the type of a captured webhook `body` (`z.unknown()` in
the zod schemas: the payload is opaque and passed through unchanged). -/
inductive Json where
  | null : Json
  | bool (b : Bool) : Json
  | num (n : Int) : Json
  | str (s : String) : Json
  | arr (xs : List Json) : Json
  | obj (fields : List (String × Json)) : Json

mutual

/-- `JSON.stringify`, as applied to the captured body when the outbound
POST is issued (`body: JSON.stringify(body)` in `forward-webhook.step.ts`). -/
def jsonStringify : Json → String
  | .null => "null"
  | .bool true => "true"
  | .bool false => "false"
  | .num n => toString n
  | .str s => "\"" ++ s ++ "\""
  | .arr xs => "[" ++ jsonStringifyArr xs ++ "]"
  | .obj fs => "\x7b" ++ jsonStringifyObj fs ++ "\x7d"

/-- Comma-separated serialization of a JSON array's elements. -/
def jsonStringifyArr : List Json → String
  | [] => ""
  | [x] => jsonStringify x
  | x :: y :: xs => jsonStringify x ++ "," ++ jsonStringifyArr (y :: xs)

/-- Comma-separated serialization of a JSON object's fields. -/
def jsonStringifyObj : List (String × Json) → String
  | [] => ""
  | [(k, v)] => "\"" ++ k ++ "\":" ++ jsonStringify v
  | (k, v) :: f :: fs =>
      "\"" ++ k ++ "\":" ++ jsonStringify v ++ "," ++ jsonStringifyObj (f :: fs)

end

/-- A captured header value: zod validates `headers` as
`z.record(z.string(), z.union([z.string(), z.array(z.string())]))`. -/
inductive HVal where
  | one (s : String) : HVal
  | many (l : List String) : HVal
deriving DecidableEq

/-- A headers map: JS object from header name to value. -/
abbrev HeadersMap := List (String × HVal)

/-- JS property lookup `headers[k]` (keys of a JS record are unique;
on our association lists the first binding wins). -/
def hlookup (hs : HeadersMap) (k : String) : Option HVal :=
  (hs.find? (fun p => p.1 == k)).map (fun p => p.2)

/-- Webhook lifecycle status (`WebhookStatus` in `webhook.types.ts`). -/
inductive WebhookStatus where
  | received : WebhookStatus
  | forwarded : WebhookStatus
  | failed : WebhookStatus
  | retrying : WebhookStatus
  | dlq : WebhookStatus
deriving DecidableEq

/-- `StoredWebhook` (`webhook.types.ts`).  Optional fields are `Option`;
`retryCount` is `Option Nat` because records written by `ProcessWebhook`
omit it entirely and readers guard with `retryCount || 0`.  `receivedAt`
is epoch milliseconds (see the file header). -/
structure StoredWebhook where
  id : String
  projectId : String
  method : String
  headers : HeadersMap
  body : Json
  receivedAt : Nat
  status : WebhookStatus
  forwardedAt : Option String := none
  targetUrl : Option String := none
  errorMessage : Option String := none
  retryCount : Option Nat := none
  lastRetryAt : Option String := none
  dlqAt : Option String := none

/-- The `webhooks` collection of the state store: keyed records,
last write wins. -/
abbrev Store := List (String × StoredWebhook)

/-- `state.get("webhooks", id)`. -/
def sget (s : Store) (id : String) : Option StoredWebhook :=
  (s.find? (fun p => p.1 == id)).map (fun p => p.2)

/-- `state.set("webhooks", id, wh)`: last-write-wins overwrite. -/
def sset (s : Store) (id : String) (wh : StoredWebhook) : Store :=
  (id, wh) :: s

/-- Payload of a `webhook-forward` event (the contract between the
replay/retry entry points and the delivery handler). -/
structure EmitForward where
  webhookId : String
  targetUrl : String
  headers : HeadersMap
  body : Json

/-- An observable side effect of a handler, in program order. -/
inductive Action where
  | setWebhook (id : String) (wh : StoredWebhook) : Action
  | emitForward (e : EmitForward) : Action

/-- Replay the store mutations of a handler's action trace. -/
def applyActions (acts : List Action) (s : Store) : Store :=
  match acts with
  | [] => s
  | .setWebhook id wh :: rest => applyActions rest (sset s id wh)
  | .emitForward _ :: rest => applyActions rest s

/-- Input of the `ForwardWebhook` event handler (its zod `inputSchema`). -/
structure ForwardInput where
  webhookId : String
  targetUrl : String
  headers : HeadersMap
  body : Json

/-- Outcome of the outbound `fetch`: either a response with a status code
and status text, or a thrown error (`some msg` when the thrown value is an
`Error` with message `msg`, `none` for a non-`Error` value). -/
inductive FetchOutcome where
  | response (status : Nat) (statusText : String) : FetchOutcome
  | thrown (errMsg : Option String) : FetchOutcome

/-- `Response.ok` of the WHATWG fetch API: status in the range 200..299. -/
def responseOk (status : Nat) : Bool :=
  200 ≤ status && status < 300

/-- The error string `` `HTTP ${response.status}: ${response.statusText}` ``. -/
def httpErrorMessage (status : Nat) (statusText : String) : String :=
  "HTTP " ++ toString status ++ ": " ++ statusText

/-- The outbound request `fetch(targetUrl, {method: "POST", headers, body})`.
Header values are `Option String`: `none` models a JS `undefined` value
(reachable when the captured `content-type` is an empty array). -/
structure OutboundRequest where
  url : String
  method : String
  headers : List (String × Option String)
  body : String

/-- Outbound header construction of `ForwardWebhook`: start from an empty
object, read exactly `headers["content-type"]`, and if that value is JS-truthy
set `Content-Type` to it (first element when it is an array).  An empty
string is falsy (no header); an empty array is truthy and `[][0]` is
`undefined` (`none`). -/
def forwardHeaders (hs : HeadersMap) : List (String × Option String) :=
  match hlookup hs "content-type" with
  | none => []
  | some (.one s) => if s = "" then [] else [("Content-Type", some s)]
  | some (.many l) => [("Content-Type", l.head?)]

/-- The outbound POST built by `ForwardWebhook` before `fetch` is called. -/
def outboundRequest (inp : ForwardInput) : OutboundRequest :=
  { url := inp.targetUrl
    method := "POST"
    headers := forwardHeaders inp.headers
    body := jsonStringify inp.body }

/-- Result of one `ForwardWebhook` handler run: the request it issued, its
store/emit side effects in program order, and whether it re-raised the
failure (the handler catches every error and never rethrows). -/
structure ForwardResult where
  request : OutboundRequest
  actions : List Action
  rethrown : Bool

/-- The `ForwardWebhook` event handler (`forward-webhook.step.ts`).  After
the POST it re-reads the record; if present it sets
`status = ok ? "forwarded" : "failed"`, stamps `forwardedAt`, overwrites
`targetUrl`, sets `errorMessage` on failure, and persists.  When the POST
throws, the catch block does the same with `status = "failed"` and the raw
error text.  If the record is absent nothing is written.  `now` is the
ISO timestamp `new Date().toISOString()`. -/
def forwardWebhook (inp : ForwardInput) (outcome : FetchOutcome) (now : String)
    (s : Store) : ForwardResult :=
  let req := outboundRequest inp
  match outcome with
  | .response st stx =>
    match sget s inp.webhookId with
    | none => ⟨req, [], false⟩
    | some wh =>
      let ok := responseOk st
      let wh2 := { wh with
        status := if ok then .forwarded else .failed
        forwardedAt := some now
        targetUrl := some inp.targetUrl
        errorMessage := if ok then wh.errorMessage else some (httpErrorMessage st stx) }
      ⟨req, [.setWebhook inp.webhookId wh2], false⟩
  | .thrown errMsg =>
    match sget s inp.webhookId with
    | none => ⟨req, [], false⟩
    | some wh =>
      let wh2 := { wh with
        status := .failed
        forwardedAt := some now
        targetUrl := some inp.targetUrl
        errorMessage := some (errMsg.getD "Unknown error") }
      ⟨req, [.setWebhook inp.webhookId wh2], false⟩

/-- The store after one `ForwardWebhook` run. -/
def forwardStep (inp : ForwardInput) (outcome : FetchOutcome) (now : String)
    (s : Store) : Store :=
  applyActions (forwardWebhook inp outcome now s).actions s

/-- The record stored by the `ProcessWebhook` event handler
(`process-webhook.step.ts`): exactly the captured fields plus
`status: "received"`; no delivery-outcome field is written. -/
def processRecord (webhookId projectId method : String) (headers : HeadersMap)
    (body : Json) (receivedAt : Nat) : StoredWebhook :=
  { id := webhookId
    projectId := projectId
    method := method
    headers := headers
    body := body
    receivedAt := receivedAt
    status := .received }

/-- The `ProcessWebhook` event handler: `state.set("webhooks", webhookId, ...)`. -/
def processWebhook (webhookId projectId method : String) (headers : HeadersMap)
    (body : Json) (receivedAt : Nat) (s : Store) : Store :=
  sset s webhookId (processRecord webhookId projectId method headers body receivedAt)

/-- HTTP response of the `RetryWebhook` API handler (`retry-webhook.step.ts`). -/
inductive RetryResp where
  | notFound (error : String) : RetryResp
  | invalidState (error : String) : RetryResp
  | ok (message webhookId : String) : RetryResp

/-- Status code of a `RetryWebhook` response. -/
def RetryResp.statusCode : RetryResp → Nat
  | .notFound _ => 404
  | .invalidState _ => 400
  | .ok _ _ => 200

/-- Result of one `RetryWebhook` run: HTTP response plus side effects in
program order. -/
structure RetryResult where
  resp : RetryResp
  actions : List Action

/-- The record as re-armed by `RetryWebhook` just before it persists:
`status = "retrying"`, `retryCount = (retryCount || 0) + 1`,
`lastRetryAt = now`. -/
def retriedRecord (wh : StoredWebhook) (now : String) : StoredWebhook :=
  { wh with
    status := .retrying
    retryCount := some (wh.retryCount.getD 0 + 1)
    lastRetryAt := some now }

/-- The `RetryWebhook` API handler (`POST /webhooks/:id/retry`).  404 when
the record is missing; 400 when `!webhook.targetUrl` (JS-falsy: absent or
empty string); otherwise it persists the re-armed record and only then
emits `webhook-forward` with the stored `targetUrl`/`headers`/`body`. -/
def retryWebhook (id now : String) (s : Store) : RetryResult :=
  match sget s id with
  | none => ⟨.notFound "Webhook not found", []⟩
  | some wh =>
    match wh.targetUrl with
    | none => ⟨.invalidState "Webhook has no target URL to retry", []⟩
    | some url =>
      if url = "" then
        ⟨.invalidState "Webhook has no target URL to retry", []⟩
      else
        ⟨.ok "Webhook retry initiated" id,
          [.setWebhook id (retriedRecord wh now),
           .emitForward ⟨id, url, wh.headers, wh.body⟩]⟩

/-- HTTP response of the `ReplayWebhook` API handler
(`ReplayWebhook` in `forward-webhook.step.ts`). -/
inductive ReplayResp where
  | notFound (error : String) : ReplayResp
  | accepted (webhookId status : String) : ReplayResp

/-- Status code of a `ReplayWebhook` response. -/
def ReplayResp.statusCode : ReplayResp → Nat
  | .notFound _ => 404
  | .accepted _ _ => 200

/-- Result of one `ReplayWebhook` run: HTTP response plus side effects in
program order. -/
structure ReplayResult where
  resp : ReplayResp
  actions : List Action

/-- The `ReplayWebhook` API handler (`POST /webhooks/:id/replay`).  404 when
the record is missing; otherwise it emits `webhook-forward` carrying the
caller's `targetUrl` and the stored `headers`/`body`, writes nothing, and
acknowledges with `status: "accepted"`. -/
def replayWebhook (id targetUrl : String) (s : Store) : ReplayResult :=
  match sget s id with
  | none => ⟨.notFound "Webhook not found", []⟩
  | some wh =>
    ⟨.accepted id "accepted", [.emitForward ⟨id, targetUrl, wh.headers, wh.body⟩]⟩

/-- `parseInt(q) || d` on an already-parsed query value: `none` models a
missing or non-numeric parameter (`parseInt` gives `NaN`); a parsed `0` is
falsy and also falls back to the default. -/
def jsOrInt (q : Option Int) (d : Int) : Int :=
  match q with
  | some v => if v = 0 then d else v
  | none => d

/-- `Array.prototype.slice(start, end)` with JS index clamping (negative
indices count from the end of the array). -/
def jsSlice (l : List StoredWebhook) (start fin : Int) : List StoredWebhook :=
  let len : Int := l.length
  let k := if start < 0 then max (len + start) 0 else min start len
  let e := if fin < 0 then max (len + fin) 0 else min fin len
  (l.drop k.toNat).take (e - k).toNat

/-- The `projectId` filter of `ListWebhooks`: `if (projectId) ...` — an
absent or empty-string parameter leaves the list unfiltered. -/
def filteredByProject (all : List StoredWebhook) (projectId : Option String) :
    List StoredWebhook :=
  match projectId with
  | some pid => if pid = "" then all else all.filter (fun wh => wh.projectId == pid)
  | none => all

/-- The comparator `(a, b) => new Date(b.receivedAt).getTime() - new
Date(a.receivedAt).getTime()` sorts by `receivedAt` descending; JS
`Array.prototype.sort` is a stable sort, modelled here by a stable
insertion sort into descending `receivedAt` order. -/
def sortByReceivedDesc (l : List StoredWebhook) : List StoredWebhook :=
  l.insertionSort (fun a b => b.receivedAt ≤ a.receivedAt)

/-- Body of the 200 response of `ListWebhooks` (`GET /webhooks`). -/
structure ListResp where
  webhooks : List StoredWebhook
  total : Nat
  limit : Int
  offset : Int

/-- The `ListWebhooks` API handler (`ListWebhooks` in
`forward-webhook.step.ts`): read the whole `webhooks` group, filter by
`projectId` when truthy, sort by `receivedAt` descending, and return the
slice `[offset, offset + limit)` together with the filtered total and the
limit/offset used.  `limitQ`/`offsetQ` are the `parseInt` results of the
query parameters (`none` = absent or `NaN`). -/
def listWebhooks (all : List StoredWebhook) (projectId : Option String)
    (limitQ offsetQ : Option Int) : ListResp :=
  let limit := jsOrInt limitQ 50
  let offset := jsOrInt offsetQ 0
  let filtered := filteredByProject all projectId
  let sorted := sortByReceivedDesc filtered
  { webhooks := jsSlice sorted offset (offset + limit)
    total := filtered.length
    limit := limit
    offset := offset }

/-- One store-affecting operation of the pipeline: a capture being
processed (`ProcessWebhook`), a delivery attempt (`ForwardWebhook`), a
replay request (`ReplayWebhook`), or a manual retry (`RetryWebhook`). -/
inductive Op where
  | capture (webhookId projectId method : String) (headers : HeadersMap)
      (body : Json) (receivedAt : Nat) : Op
  | forward (inp : ForwardInput) (outcome : FetchOutcome) (now : String) : Op
  | replay (id targetUrl : String) : Op
  | retry (id now : String) : Op

/-- Effect of one operation on the `webhooks` collection. -/
def step : Op → Store → Store
  | .capture wid pid m h b r, s => processWebhook wid pid m h b r s
  | .forward inp outcome now, s => forwardStep inp outcome now s
  | .replay id targetUrl, s => applyActions (replayWebhook id targetUrl s).actions s
  | .retry id now, s => applyActions (retryWebhook id now s).actions s

/-- Run a sequence of operations left to right. -/
def runOps (s : Store) : List Op → Store
  | [] => s
  | op :: rest => runOps (step op s) rest

/-- A capture operation only ever targets a fresh id: `generateWebhookId`
returns `wh_<timestamp>_<uuid>`, unique in practice, so a processed capture
never lands on an id that already has a record. -/
def opFresh : Op → Store → Bool
  | .capture wid _ _ _ _ _, s => (sget s wid).isNone
  | _, _ => true

/-- Every capture in the sequence targets an id with no existing record at
the moment it runs. -/
def capturesFresh : Store → List Op → Bool
  | _, [] => true
  | s, op :: rest => opFresh op s && capturesFresh (step op s) rest

/-- The `retryCount` of the record under `id`, reading an absent record or
an absent counter as `0` (the code guards every read with
`retryCount || 0`). -/
def rc (s : Store) (id : String) : Nat :=
  match sget s id with
  | some wh => wh.retryCount.getD 0
  | none => 0

/-- A concrete captured headers map used by the concrete instances below. -/
def sampleHeaders : HeadersMap :=
  [("content-type", .one "application/json"), ("x-api-key", .one "k1")]

/-- A concrete freshly captured record (`status = "received"`). -/
def sampleRecord : StoredWebhook :=
  { id := "w1"
    projectId := "p1"
    method := "POST"
    headers := sampleHeaders
    body := .obj [("a", .num 1)]
    receivedAt := 1700000000000
    status := .received }

/-- A store holding only `sampleRecord` under its id. -/
def sampleStore : Store := [("w1", sampleRecord)]

/-- A concrete record that has already been forwarded once, so it carries a
`targetUrl`. -/
def sampleForwarded : StoredWebhook :=
  { sampleRecord with
    status := .forwarded
    forwardedAt := some "2024-01-01T00:00:00.000Z"
    targetUrl := some "https://target.example/hook" }

/-- A store holding only `sampleForwarded` under its id. -/
def sampleStore2 : Store := [("w1", sampleForwarded)]

/-- A concrete `webhook-forward` input for the record above. -/
def sampleInput : ForwardInput :=
  { webhookId := "w1"
    targetUrl := "https://target.example/hook"
    headers := sampleHeaders
    body := sampleRecord.body }

/-- A concrete `webhook-forward` input whose headers hold `Content-Type`
only under its capitalized name. -/
def sampleCapitalizedInput : ForwardInput :=
  { webhookId := "w1"
    targetUrl := "https://target.example/hook"
    headers := [("Content-Type", .one "application/json")]
    body := .null }

/-- A concrete operation sequence: a manual retry of the forwarded record,
a delivery attempt answered 503, then a fresh capture. -/
def witnessOps : List Op :=
  [.retry "w1" "T2",
   .forward ⟨"w1", "https://target.example/hook", sampleHeaders, .null⟩
     (.response 503 "Service Unavailable") "T3",
   .capture "w2" "p1" "POST" [] .null 1700000000001]

/-- A second concrete record under another project, received later. -/
def sampleRecord2 : StoredWebhook :=
  { sampleRecord with id := "w2", projectId := "p2", receivedAt := 1700000000005 }

/-- A concrete group listing: the two records above. -/
def sampleStoreList : List StoredWebhook := [sampleRecord, sampleRecord2]

theorem sget_sset (s : Store) (k id : String) (wh : StoredWebhook) :
    sget (sset s k wh) id = if k == id then some wh else sget s id := by
  simp only [sget, sset, List.find?]
  by_cases h : k == id <;> simp [h]

theorem rc_step_mono (op : Op) (s : Store) (id : String)
    (hfresh : opFresh op s = true) : rc s id ≤ rc (step op s) id := by
  cases op with
  | capture wid pid m h b r =>
    simp only [step, processWebhook, rc, sget_sset]
    by_cases hk : wid == id
    · simp only [opFresh, Option.isNone_iff_eq_none] at hfresh
      rw [eq_of_beq hk] at hfresh
      simp [hk, hfresh, processRecord]
    · simp [hk]
  | forward inp outcome now =>
    simp only [step, forwardStep, forwardWebhook]
    cases outcome with
    | response st stx =>
      cases hw : sget s inp.webhookId with
      | none => simp [applyActions]
      | some wh =>
        simp only [applyActions, rc, sget_sset]
        by_cases hk : inp.webhookId == id
        · rw [eq_of_beq hk] at hw
          simp [hk, hw]
        · simp [hk]
    | thrown errMsg =>
      cases hw : sget s inp.webhookId with
      | none => simp [applyActions]
      | some wh =>
        simp only [applyActions, rc, sget_sset]
        by_cases hk : inp.webhookId == id
        · rw [eq_of_beq hk] at hw
          simp [hk, hw]
        · simp [hk]
  | replay rid targetUrl =>
    simp only [step, replayWebhook]
    cases hw : sget s rid <;> simp [applyActions]
  | retry rid now =>
    simp only [step, retryWebhook]
    cases hw : sget s rid with
    | none => simp [applyActions]
    | some wh =>
      cases hu : wh.targetUrl with
      | none => simp [hu, applyActions]
      | some url =>
        by_cases hurl : url = ""
        · simp [hu, hurl, applyActions]
        · simp only [hu]
          rw [if_neg hurl]
          simp only [applyActions, rc, sget_sset]
          by_cases hk : rid == id
          · rw [eq_of_beq hk] at hw
            simp [hk, hw, retriedRecord]
          · simp [hk]

theorem rc_runOps_mono (ops : List Op) (s : Store) (id : String)
    (hfresh : capturesFresh s ops = true) : rc s id ≤ rc (runOps s ops) id := by
  induction ops generalizing s with
  | nil => simp [runOps]
  | cons op rest ih =>
    simp only [capturesFresh, Bool.and_eq_true] at hfresh
    exact le_trans (rc_step_mono op s id hfresh.1) (ih (step op s) hfresh.2)

theorem responseOk_eq_false_of_ge_300 (st : Nat) (h : 300 ≤ st) :
    responseOk st = false := by
  simp only [responseOk, Bool.and_eq_false_iff, decide_eq_false_iff_not, not_le, not_lt]
  omega

/-- Claim C1 counterexample: a delivery attempt answered with HTTP 404
leaves the record with `status = "failed"` — not `"dlq"` — and with no
`dlqAt`, contradicting the claimed dead-letter transition. -/
theorem c1_counterexample :
    (sget (forwardStep sampleInput (.response 404 "Not Found")
        "2024-01-02T00:00:00.000Z" sampleStore) "w1").map (fun wh => wh.status) =
      some .failed ∧
    WebhookStatus.failed ≠ .dlq ∧
    (sget (forwardStep sampleInput (.response 404 "Not Found")
        "2024-01-02T00:00:00.000Z" sampleStore) "w1").bind (fun wh => wh.dlqAt) =
      none := by
  refine ⟨rfl, by decide, rfl⟩

/-- Claim C1 (amended): a delivery attempt whose POST returns a 4xx response
updates the record to `status = "failed"` (not `"dlq"`) with
`errorMessage = "HTTP <code>: <reason>"`, `forwardedAt = now` and
`targetUrl` the url used; `dlqAt`, `retryCount` and `lastRetryAt` are left
untouched, and no retry or dead-letter event is emitted. -/
theorem c1_fourxx_marks_failed
    (inp : ForwardInput) (st : Nat) (stx now : String) (s : Store)
    (wh : StoredWebhook) (hw : sget s inp.webhookId = some wh)
    (h4 : 400 ≤ st) (h5 : st < 500) :
    sget (forwardStep inp (.response st stx) now s) inp.webhookId = some
      { wh with
        status := .failed
        forwardedAt := some now
        targetUrl := some inp.targetUrl
        errorMessage := some (httpErrorMessage st stx) } ∧
    (forwardWebhook inp (.response st stx) now s).rethrown = false ∧
    ∀ e, Action.emitForward e ∉ (forwardWebhook inp (.response st stx) now s).actions := by
  have hok : responseOk st = false := responseOk_eq_false_of_ge_300 st (by omega)
  refine ⟨?_, ?_, ?_⟩ <;>
    simp [forwardStep, forwardWebhook, hw, hok, applyActions, sget_sset]

/-- Witness for C1: the amended theorem at a concrete 418 response. -/
theorem c1_fourxx_marks_failed_witness :
    sget (forwardStep sampleInput (.response 418 "Teapot") "T1" sampleStore)
        sampleInput.webhookId = some
      { sampleRecord with
        status := .failed
        forwardedAt := some "T1"
        targetUrl := some sampleInput.targetUrl
        errorMessage := some (httpErrorMessage 418 "Teapot") } ∧
    (forwardWebhook sampleInput (.response 418 "Teapot") "T1" sampleStore).rethrown = false ∧
    ∀ e, Action.emitForward e ∉
      (forwardWebhook sampleInput (.response 418 "Teapot") "T1" sampleStore).actions :=
  c1_fourxx_marks_failed sampleInput 418 "Teapot" "T1" sampleStore sampleRecord rfl
    (by decide) (by decide)

/-- Claim C2 counterexample: a delivery attempt answered with HTTP 503
leaves the record with `status = "failed"` — not `"retrying"` — with
`retryCount` not incremented (still absent) and `lastRetryAt` unset, and
the handler swallows the failure instead of propagating it. -/
theorem c2_counterexample :
    (sget (forwardStep sampleInput (.response 503 "Service Unavailable")
        "2024-01-02T00:00:00.000Z" sampleStore) "w1").map (fun wh => wh.status) =
      some .failed ∧
    WebhookStatus.failed ≠ .retrying ∧
    (sget (forwardStep sampleInput (.response 503 "Service Unavailable")
        "2024-01-02T00:00:00.000Z" sampleStore) "w1").bind (fun wh => wh.retryCount) =
      none ∧
    (sget (forwardStep sampleInput (.response 503 "Service Unavailable")
        "2024-01-02T00:00:00.000Z" sampleStore) "w1").bind (fun wh => wh.lastRetryAt) =
      none ∧
    (forwardWebhook sampleInput (.response 503 "Service Unavailable")
        "2024-01-02T00:00:00.000Z" sampleStore).rethrown = false := by
  refine ⟨rfl, by decide, rfl, rfl, rfl⟩

/-- Claim C2 (amended): a delivery attempt whose POST returns a 5xx
response, or throws, updates the record to `status = "failed"` (not
`"retrying"`) with `errorMessage` the HTTP error string or the raw error
text (`"Unknown error"` for a non-Error throw), `forwardedAt = now`, and
`targetUrl` the url used; `retryCount` and `lastRetryAt` are untouched and
the failure is swallowed, so nothing is rescheduled. -/
theorem c2_transient_marks_failed
    (inp : ForwardInput) (st : Nat) (stx now : String) (em : Option String)
    (s : Store) (wh : StoredWebhook) (hw : sget s inp.webhookId = some wh)
    (h5 : 500 ≤ st) :
    (sget (forwardStep inp (.response st stx) now s) inp.webhookId = some
      { wh with
        status := .failed
        forwardedAt := some now
        targetUrl := some inp.targetUrl
        errorMessage := some (httpErrorMessage st stx) } ∧
     (forwardWebhook inp (.response st stx) now s).rethrown = false) ∧
    (sget (forwardStep inp (.thrown em) now s) inp.webhookId = some
      { wh with
        status := .failed
        forwardedAt := some now
        targetUrl := some inp.targetUrl
        errorMessage := some (em.getD "Unknown error") } ∧
     (forwardWebhook inp (.thrown em) now s).rethrown = false) := by
  have hok : responseOk st = false := responseOk_eq_false_of_ge_300 st (by omega)
  refine ⟨⟨?_, ?_⟩, ?_, ?_⟩ <;>
    simp [forwardStep, forwardWebhook, hw, hok, applyActions, sget_sset]

/-- Witness for C2: the amended theorem at a concrete 503 response and a
concrete network error. -/
theorem c2_transient_marks_failed_witness :
    (sget (forwardStep sampleInput (.response 503 "Service Unavailable") "T1" sampleStore)
        sampleInput.webhookId = some
      { sampleRecord with
        status := .failed
        forwardedAt := some "T1"
        targetUrl := some sampleInput.targetUrl
        errorMessage := some (httpErrorMessage 503 "Service Unavailable") } ∧
     (forwardWebhook sampleInput (.response 503 "Service Unavailable") "T1"
        sampleStore).rethrown = false) ∧
    (sget (forwardStep sampleInput (.thrown (some "fetch failed")) "T1" sampleStore)
        sampleInput.webhookId = some
      { sampleRecord with
        status := .failed
        forwardedAt := some "T1"
        targetUrl := some sampleInput.targetUrl
        errorMessage := some ((some "fetch failed").getD "Unknown error") } ∧
     (forwardWebhook sampleInput (.thrown (some "fetch failed")) "T1"
        sampleStore).rethrown = false) :=
  c2_transient_marks_failed sampleInput 503 "Service Unavailable" "T1"
    (some "fetch failed") sampleStore sampleRecord rfl (by decide)

/-- Claim C3 counterexample: a 3xx response (HTTP 304) is not a success for
this handler — `response.ok` is 2xx only — so the record ends with
`status = "failed"`, not `"forwarded"`. -/
theorem c3_counterexample :
    (sget (forwardStep sampleInput (.response 304 "Not Modified")
        "2024-01-02T00:00:00.000Z" sampleStore) "w1").map (fun wh => wh.status) =
      some .failed ∧
    WebhookStatus.failed ≠ .forwarded := by
  refine ⟨rfl, by decide⟩

/-- Claim C3 (amended): a delivery attempt whose POST returns a 2xx
response updates the record to `status = "forwarded"` with
`forwardedAt = now` and `targetUrl` the url used, leaving `retryCount` (and
every other field, including the stale `errorMessage`) unchanged; a 3xx
response is instead treated as a failure (`status = "failed"`). -/
theorem c3_twoxx_forwarded_threexx_failed
    (inp : ForwardInput) (st : Nat) (stx now : String) (s : Store)
    (wh : StoredWebhook) (hw : sget s inp.webhookId = some wh) :
    (200 ≤ st → st < 300 →
      sget (forwardStep inp (.response st stx) now s) inp.webhookId = some
        { wh with
          status := .forwarded
          forwardedAt := some now
          targetUrl := some inp.targetUrl }) ∧
    (300 ≤ st → st < 400 →
      sget (forwardStep inp (.response st stx) now s) inp.webhookId = some
        { wh with
          status := .failed
          forwardedAt := some now
          targetUrl := some inp.targetUrl
          errorMessage := some (httpErrorMessage st stx) }) := by
  constructor
  · intro h2 h3
    have hok : responseOk st = true := by
      simp only [responseOk, Bool.and_eq_true, decide_eq_true_eq]
      omega
    simp [forwardStep, forwardWebhook, hw, hok, applyActions, sget_sset]
  · intro h3 h4
    have hok : responseOk st = false := responseOk_eq_false_of_ge_300 st h3
    simp [forwardStep, forwardWebhook, hw, hok, applyActions, sget_sset]

/-- Witness for C3: the amended theorem at concrete 200 and 304 responses. -/
theorem c3_twoxx_forwarded_threexx_failed_witness :
    (200 ≤ 200 ∧
      sget (forwardStep sampleInput (.response 200 "OK") "T1" sampleStore)
          sampleInput.webhookId = some
        { sampleRecord with
          status := .forwarded
          forwardedAt := some "T1"
          targetUrl := some sampleInput.targetUrl }) ∧
    (300 ≤ 304 ∧
      sget (forwardStep sampleInput (.response 304 "Not Modified") "T1" sampleStore)
          sampleInput.webhookId = some
        { sampleRecord with
          status := .failed
          forwardedAt := some "T1"
          targetUrl := some sampleInput.targetUrl
          errorMessage := some (httpErrorMessage 304 "Not Modified") }) :=
  ⟨⟨by decide,
    (c3_twoxx_forwarded_threexx_failed sampleInput 200 "OK" "T1" sampleStore
        sampleRecord rfl).1 (by decide) (by decide)⟩,
   ⟨by decide,
    (c3_twoxx_forwarded_threexx_failed sampleInput 304 "Not Modified" "T1" sampleStore
        sampleRecord rfl).2 (by decide) (by decide)⟩⟩

/-- Claim C8: a delivery attempt for an id with no record in the store
performs no store mutation at all, whatever the fetch outcome — response of
any status or a thrown error. -/
theorem c8_missing_record_no_mutation
    (inp : ForwardInput) (outcome : FetchOutcome) (now : String) (s : Store)
    (hw : sget s inp.webhookId = none) :
    (forwardWebhook inp outcome now s).actions = [] ∧
    forwardStep inp outcome now s = s := by
  cases outcome <;> simp [forwardStep, forwardWebhook, hw, applyActions]

/-- Witness for C8: the theorem at a concrete input over the empty store. -/
theorem c8_missing_record_no_mutation_witness :
    sget ([] : Store) sampleInput.webhookId = none ∧
    ((forwardWebhook sampleInput (.response 200 "OK") "T1" ([] : Store)).actions = [] ∧
     forwardStep sampleInput (.response 200 "OK") "T1" ([] : Store) = []) :=
  ⟨rfl, c8_missing_record_no_mutation sampleInput (.response 200 "OK") "T1" [] rfl⟩

/-- Claim C4: `ManualRetry(id)` returns 404 when no record exists; returns
400 ("no target URL") when the record's `targetUrl` is absent; otherwise it
answers 200, persists the record re-armed to `status = "retrying"` with
`retryCount` incremented and `lastRetryAt` stamped, and only then (the
persist precedes the emit in the action trace) dispatches `webhook-forward`
with the record's stored `targetUrl`, `headers` and `body`. -/
theorem c4_manual_retry_contract (id now : String) (s : Store) :
    (sget s id = none →
      (retryWebhook id now s).resp = .notFound "Webhook not found" ∧
      (retryWebhook id now s).resp.statusCode = 404 ∧
      (retryWebhook id now s).actions = []) ∧
    (∀ wh, sget s id = some wh → wh.targetUrl = none →
      (retryWebhook id now s).resp = .invalidState "Webhook has no target URL to retry" ∧
      (retryWebhook id now s).resp.statusCode = 400 ∧
      (retryWebhook id now s).actions = []) ∧
    (∀ wh url, sget s id = some wh → wh.targetUrl = some url → url ≠ "" →
      (retryWebhook id now s).resp = .ok "Webhook retry initiated" id ∧
      (retryWebhook id now s).resp.statusCode = 200 ∧
      (retryWebhook id now s).actions =
        [.setWebhook id (retriedRecord wh now),
         .emitForward ⟨id, url, wh.headers, wh.body⟩] ∧
      sget (applyActions (retryWebhook id now s).actions s) id =
        some (retriedRecord wh now)) := by
  refine ⟨?_, ?_, ?_⟩
  · intro hw
    simp [retryWebhook, hw, RetryResp.statusCode]
  · intro wh hw hu
    simp [retryWebhook, hw, hu, RetryResp.statusCode]
  · intro wh url hw hu hurl
    simp only [retryWebhook, hw, hu]
    rw [if_neg hurl]
    simp [RetryResp.statusCode, applyActions, sget_sset]

/-- Witness for C4: the theorem's success case on a store whose record has
a target URL. -/
theorem c4_manual_retry_contract_witness :
    sget sampleStore2 "w1" = some sampleForwarded ∧
    (retryWebhook "w1" "T2" sampleStore2).resp = .ok "Webhook retry initiated" "w1" ∧
    (retryWebhook "w1" "T2" sampleStore2).resp.statusCode = 200 ∧
    (retryWebhook "w1" "T2" sampleStore2).actions =
      [.setWebhook "w1" (retriedRecord sampleForwarded "T2"),
       .emitForward ⟨"w1", "https://target.example/hook",
         sampleForwarded.headers, sampleForwarded.body⟩] ∧
    sget (applyActions (retryWebhook "w1" "T2" sampleStore2).actions sampleStore2) "w1" =
      some (retriedRecord sampleForwarded "T2") :=
  ⟨rfl,
    (c4_manual_retry_contract "w1" "T2" sampleStore2).2.2 sampleForwarded
      "https://target.example/hook" rfl rfl (by decide)⟩

/-- Claim C5: `Replay(id, targetUrl)` returns 404 when no record exists;
otherwise it acknowledges with 200 `status: "accepted"`, emits a single
`webhook-forward` event carrying the caller's `targetUrl` and the stored
`headers`/`body`, and leaves the store entirely unmutated. -/
theorem c5_replay_contract (id targetUrl : String) (s : Store) :
    (sget s id = none →
      (replayWebhook id targetUrl s).resp = .notFound "Webhook not found" ∧
      (replayWebhook id targetUrl s).resp.statusCode = 404 ∧
      (replayWebhook id targetUrl s).actions = []) ∧
    (∀ wh, sget s id = some wh →
      (replayWebhook id targetUrl s).resp = .accepted id "accepted" ∧
      (replayWebhook id targetUrl s).resp.statusCode = 200 ∧
      (replayWebhook id targetUrl s).actions =
        [.emitForward ⟨id, targetUrl, wh.headers, wh.body⟩] ∧
      applyActions (replayWebhook id targetUrl s).actions s = s) := by
  refine ⟨?_, ?_⟩
  · intro hw
    simp [replayWebhook, hw, ReplayResp.statusCode]
  · intro wh hw
    simp [replayWebhook, hw, ReplayResp.statusCode, applyActions]

/-- Witness for C5: the theorem's success case at a concrete replay target. -/
theorem c5_replay_contract_witness :
    sget sampleStore "w1" = some sampleRecord ∧
    (replayWebhook "w1" "https://replay.example/x" sampleStore).resp =
      .accepted "w1" "accepted" ∧
    (replayWebhook "w1" "https://replay.example/x" sampleStore).resp.statusCode = 200 ∧
    (replayWebhook "w1" "https://replay.example/x" sampleStore).actions =
      [.emitForward ⟨"w1", "https://replay.example/x",
        sampleRecord.headers, sampleRecord.body⟩] ∧
    applyActions (replayWebhook "w1" "https://replay.example/x" sampleStore).actions
      sampleStore = sampleStore :=
  ⟨rfl,
    (c5_replay_contract "w1" "https://replay.example/x" sampleStore).2 sampleRecord rfl⟩

/-- Claim C6: the outbound POST targets the given url with the captured
body serialized by `JSON.stringify` unchanged, and its headers contain at
most one entry, necessarily keyed `Content-Type`: the first element of the
captured `content-type` header when it is multi-valued, or its string value
when single-valued; every other captured header is dropped. -/
theorem c6_outbound_request_shape (inp : ForwardInput) :
    (outboundRequest inp).url = inp.targetUrl ∧
    (outboundRequest inp).method = "POST" ∧
    (outboundRequest inp).body = jsonStringify inp.body ∧
    (outboundRequest inp).headers.length ≤ 1 ∧
    (∀ kv ∈ (outboundRequest inp).headers, kv.1 = "Content-Type") ∧
    (∀ v l, hlookup inp.headers "content-type" = some (.many (v :: l)) →
      (outboundRequest inp).headers = [("Content-Type", some v)]) ∧
    (∀ cv, hlookup inp.headers "content-type" = some (.one cv) → cv ≠ "" →
      (outboundRequest inp).headers = [("Content-Type", some cv)]) := by
  refine ⟨rfl, rfl, rfl, ?_, ?_, ?_, ?_⟩
  all_goals
    cases hct : hlookup inp.headers "content-type" with
    | none => simp [outboundRequest, forwardHeaders, hct]
    | some v =>
      cases v with
      | one cs =>
        by_cases hcs : cs = "" <;>
          simp [outboundRequest, forwardHeaders, hct, hcs]
      | many l =>
        cases l <;> simp [outboundRequest, forwardHeaders, hct]

/-- Witness for C6: the theorem's multi-valued branch at a concrete input
with a two-valued `content-type` and an extra header that is dropped. -/
theorem c6_outbound_request_shape_witness :
    hlookup [("content-type", HVal.many ["text/plain", "text/html"]),
        ("x-api-key", HVal.one "k1")] "content-type" =
      some (.many ["text/plain", "text/html"]) ∧
    (outboundRequest
        { webhookId := "w1"
          targetUrl := "https://target.example/hook"
          headers := [("content-type", HVal.many ["text/plain", "text/html"]),
            ("x-api-key", HVal.one "k1")]
          body := .null }).headers = [("Content-Type", some "text/plain")] :=
  ⟨by decide,
    (c6_outbound_request_shape
        { webhookId := "w1"
          targetUrl := "https://target.example/hook"
          headers := [("content-type", HVal.many ["text/plain", "text/html"]),
            ("x-api-key", HVal.one "k1")]
          body := .null }).2.2.2.2.2.1 "text/plain" ["text/html"] (by decide)⟩

/-- Claim C7: across any sequence of capture, delivery-attempt, replay and
manual-retry operations in which captures land on fresh ids, the
`retryCount` of the record under any fixed id (absent read as 0) never
decreases. -/
theorem c7_retry_count_monotone (ops : List Op) (s : Store) (id : String)
    (hfresh : capturesFresh s ops = true) :
    rc s id ≤ rc (runOps s ops) id :=
  rc_runOps_mono ops s id hfresh

/-- Witness for C7: the theorem on a concrete retry/forward/capture
sequence over a store with one forwarded record. -/
theorem c7_retry_count_monotone_witness :
    capturesFresh sampleStore2 witnessOps = true ∧
    rc sampleStore2 "w1" ≤ rc (runOps sampleStore2 witnessOps) "w1" :=
  ⟨by decide, c7_retry_count_monotone witnessOps sampleStore2 "w1" (by decide)⟩

/-- Claim C10: the outbound-header construction reads exactly the lowercase
key `content-type`; a headers map that stores the header under any other
capitalization (and has no exact-lowercase entry) yields an outbound
request with no headers at all. -/
theorem c10_content_type_lookup_exact
    (inp : ForwardInput) (k : String) (v : HVal)
    (_hmem : (k, v) ∈ inp.headers) (_hne : k ≠ "content-type")
    (hnone : ∀ kv ∈ inp.headers, kv.1 ≠ "content-type") :
    hlookup inp.headers "content-type" = none ∧
    (outboundRequest inp).headers = [] := by
  have hl : hlookup inp.headers "content-type" = none := by
    unfold hlookup
    rw [List.find?_eq_none.mpr]
    · rfl
    · intro x hx
      simp only [beq_iff_eq]
      exact hnone x hx
  exact ⟨hl, by simp [outboundRequest, forwardHeaders, hl]⟩

/-- Witness for C10: the theorem at a concrete map holding only a
capitalized `Content-Type`. -/
theorem c10_content_type_lookup_exact_witness :
    ("Content-Type", HVal.one "application/json") ∈ sampleCapitalizedInput.headers ∧
    "Content-Type" ≠ "content-type" ∧
    hlookup sampleCapitalizedInput.headers "content-type" = none ∧
    (outboundRequest sampleCapitalizedInput).headers = [] :=
  ⟨by decide, by decide,
    c10_content_type_lookup_exact sampleCapitalizedInput "Content-Type"
      (.one "application/json") (by decide) (by decide) (by decide)⟩

/-- Claim C9 counterexample: supplying an empty `projectId` query value is
`supplying one`, yet the handler's truthiness guard skips the filter: with
one stored record under project `"p1"` the response reports `total = 1` and
returns that record, although zero records carry the supplied project id
`""`. -/
theorem c9_counterexample :
    (listWebhooks [sampleRecord] (some "") none none).total = 1 ∧
    (List.filter (fun wh => wh.projectId == "") [sampleRecord]).length = 0 ∧
    (listWebhooks [sampleRecord] (some "") none none).webhooks = [sampleRecord] ∧
    sampleRecord.projectId ≠ "" := by
  refine ⟨rfl, rfl, rfl, by decide⟩

/-- Claim C9 (amended): `GET /webhooks` returns the stored records filtered
to the given `projectId` when a non-empty one is supplied (an empty string
disables the filter), sorted by `receivedAt` descending, paginated by
`slice(offset, offset + limit)` with `limit` defaulting to 50 and `offset`
defaulting to 0 when absent, together with `total` equal to the number of
filtered records (not the number returned) and the limit and offset used. -/
theorem c9_list_webhooks_contract (all : List StoredWebhook)
    (projectId : Option String) (limitQ offsetQ : Option Int) :
    (listWebhooks all projectId limitQ offsetQ).total =
      (filteredByProject all projectId).length ∧
    (limitQ = none → (listWebhooks all projectId limitQ offsetQ).limit = 50) ∧
    (offsetQ = none → (listWebhooks all projectId limitQ offsetQ).offset = 0) ∧
    (listWebhooks all projectId limitQ offsetQ).limit = jsOrInt limitQ 50 ∧
    (listWebhooks all projectId limitQ offsetQ).offset = jsOrInt offsetQ 0 ∧
    (listWebhooks all projectId limitQ offsetQ).webhooks =
      jsSlice (sortByReceivedDesc (filteredByProject all projectId))
        (jsOrInt offsetQ 0) (jsOrInt offsetQ 0 + jsOrInt limitQ 50) ∧
    List.Pairwise (fun a b => b.receivedAt ≤ a.receivedAt)
      (listWebhooks all projectId limitQ offsetQ).webhooks ∧
    (sortByReceivedDesc (filteredByProject all projectId)).Perm
      (filteredByProject all projectId) ∧
    (∀ pid, projectId = some pid → pid ≠ "" →
      (∀ wh ∈ (listWebhooks all projectId limitQ offsetQ).webhooks,
        wh.projectId = pid) ∧
      (listWebhooks all projectId limitQ offsetQ).total =
        (all.filter (fun wh => wh.projectId == pid)).length) := by
  have hsorted : List.Pairwise (fun a b : StoredWebhook => b.receivedAt ≤ a.receivedAt)
      (sortByReceivedDesc (filteredByProject all projectId)) := by
    haveI htot : IsTotal StoredWebhook (fun a b => b.receivedAt ≤ a.receivedAt) :=
      ⟨fun a b => (Nat.le_total b.receivedAt a.receivedAt).symm.symm⟩
    haveI htrans : IsTrans StoredWebhook (fun a b => b.receivedAt ≤ a.receivedAt) :=
      ⟨fun _ _ _ hab hbc => le_trans hbc hab⟩
    exact List.sorted_insertionSort _ _
  have hsub : List.Sublist (listWebhooks all projectId limitQ offsetQ).webhooks
      (sortByReceivedDesc (filteredByProject all projectId)) := by
    show List.Sublist (jsSlice _ _ _) _
    unfold jsSlice
    exact (List.take_sublist _ _).trans (List.drop_sublist _ _)
  have hperm : (sortByReceivedDesc (filteredByProject all projectId)).Perm
      (filteredByProject all projectId) := List.perm_insertionSort _ _
  refine ⟨rfl, fun h => by subst h; rfl, fun h => by subst h; rfl, rfl, rfl, rfl,
    hsorted.sublist hsub, hperm, ?_⟩
  intro pid hpid hne
  subst hpid
  constructor
  · intro wh hwh
    have hmem : wh ∈ filteredByProject all (some pid) :=
      hperm.subset (hsub.subset hwh)
    rw [filteredByProject, if_neg hne] at hmem
    exact eq_of_beq (List.mem_filter.mp hmem).2
  · show (filteredByProject all (some pid)).length = _
    rw [filteredByProject, if_neg hne]

/-- Witness for C9: the amended theorem's project-filter clause at a
concrete two-record listing queried for project `"p1"`. -/
theorem c9_list_webhooks_contract_witness :
    ("p1" : String) ≠ "" ∧
    ((∀ wh ∈ (listWebhooks sampleStoreList (some "p1") none none).webhooks,
        wh.projectId = "p1") ∧
      (listWebhooks sampleStoreList (some "p1") none none).total =
        (sampleStoreList.filter (fun wh => wh.projectId == "p1")).length) :=
  ⟨by decide,
    (c9_list_webhooks_contract sampleStoreList (some "p1") none none).2.2.2.2.2.2.2.2
      "p1" rfl (by decide)⟩

end Relay
